import Mathlib

/-!
Shallow embedding of the per-open-file I/O engine of `src/ftpfs.c`
(curlftpfs).  Bytes are modelled as `Nat`, byte sequences as `List Nat`,
the remote file under test as a `List Nat`.  Machine integers: `off_t`
offsets delivered by the host are non-negative and are modelled as `Nat`;
the one place where C unsigned (`size_t`, 64-bit) wrap-around matters —
the cache-miss comparison in `ftpfs_read_chunk` — is modelled with an
explicit `% 2^64`.  Error returns follow the C convention of negative
errno values in an `Int`.

Network and worker-thread outcomes (bytes delivered by the non-blocking
pump, `select` failure, completion-message status, `curl_easy_perform`
results, `getattr` answers, thread-start success) are inputs to each
operation, passed as explicit environment records.
-/

/-- Linux errno values used by ftpfs.c (returned negated). -/
def eperm : Int := 1

def enoent : Int := 2

def eio : Int := 5

def enomem : Int := 12

/-- `MAX_BUFFER_LEN` from ftpfs.c: the 300 KiB soft cap on the read window. -/
def MAX_BUFFER_LEN : Nat := 300 * 1024

/-- `2^64`, the modulus of C `size_t` arithmetic on the target platform. -/
def W64 : Nat := 2 ^ 64

/-- C unsigned subtraction `a - b` carried out in `size_t` (mod `2^64`). -/
def usub (a b : Nat) : Nat := (a % W64 + (W64 - b % W64)) % W64

/-- Modelled from the spec: `struct buffer` (buffer.h/buffer.c are not in
src/); §4.1 Byte Buffer: a growable contiguous byte region `p` with `len`
(here `p.length`) and an associated `begin_offset`. -/
structure Buffer where
  p : List Nat
  begin_offset : Nat
deriving Repr, DecidableEq

/-- Modelled from the spec: `buf_init` — empty buffer. -/
def buf_init : Buffer := ⟨[], 0⟩

/-- Modelled from the spec: `buf_add_mem` — append bytes (allocation
always succeeds in the model; the fallible call sites take an explicit
success flag instead). -/
def buf_add_mem (b : Buffer) (bytes : List Nat) : Buffer :=
  { b with p := b.p ++ bytes }

/-- Modelled from the spec: `buf_clear` — sets `len = 0`, preserves the
rest. -/
def buf_clear (b : Buffer) : Buffer := { b with p := [] }

/-- `struct ftpfs_file` from ftpfs.c, restricted to the fields the
dispatcher logic reads or writes.  `write_conn : Bool` models presence of
the dedicated upload CURL handle (`write_conn != NULL`). -/
structure FtpfsFile where
  buf : Buffer
  dirty : Bool
  last_offset : Nat
  can_shrink : Bool
  open_path : String
  full_path : String
  stream_buf : List Nat
  write_conn : Bool
  eof : Bool
  written_flag : Bool
  write_fail_cause : Int
  write_may_start : Bool
  pos : Nat
deriving Repr, DecidableEq

/-- Process-wide state of `struct ftpfs` used by the read engine:
which open file last used the shared connection (`current_fh`, as a
handle id) and whether the shared connection is attached to the
non-blocking pump (`attached_to_multi`). -/
structure FtpfsGlobal where
  current_fh : Option Nat
  attached_to_multi : Bool
deriving Repr, DecidableEq

/-- Observable actions performed on the shared connection / remote
server.  Only configuration and mutating commands are logged; read-only
queries (directory listings for `getattr`) are modelled through the
environment records instead. -/
inductive CurlAction where
  | removeHandle
  | setUrl (u : String)
  | setRange (start : Nat)
  | clearRange
  | addHandle
  | uploadEmpty (path : String)
  | siteChmod (mode : Nat) (path : String)
deriving Repr, DecidableEq

/-- Environment for one `ftpfs_read_chunk` call: result of
`check_running()`, the number of bytes the network delivers during this
call (clamped to the remote file's remaining bytes), whether handles are
still running when the pump loop exits, whether `select` failed, and
whether the completion messages were all OK. -/
structure ReadEnv where
  runningBefore : Bool
  pumped : Nat
  runningAfter : Bool
  selectErr : Bool
  msgOk : Bool
deriving Repr, DecidableEq

/-- The outer cache-miss test of `ftpfs_read_chunk` (ftpfs.c:228-230):
`fh->buf.len < size + offset - fh->buf.begin_offset`, computed in
`size_t` arithmetic, `|| offset < begin_offset || offset > begin_offset
+ len`. -/
def needMiss (len sz off bo : Nat) : Bool :=
  decide (len % W64 < usub (sz + off) bo) || decide (off < bo) ||
    decide (off > bo + len)

/-- The inner restart test of `ftpfs_read_chunk` (ftpfs.c:232-235):
`ftpfs.current_fh != fh || offset < begin_offset || offset >
begin_offset + len || !check_running()`. -/
def restartCond (g : FtpfsGlobal) (fhId : Nat) (off bo len : Nat)
    (running : Bool) : Bool :=
  decide (g.current_fh ≠ some fhId) || decide (off < bo) ||
    decide (off > bo + len) || !running

/-- Result of the fill phase of `ftpfs_read_chunk`. -/
structure FillResult where
  fh : FtpfsFile
  g : FtpfsGlobal
  err : Bool
  restarted : Bool
  acts : List CurlAction
deriving Repr, DecidableEq

/-- Fill phase of `ftpfs_read_chunk` (ftpfs.c:228-312): the cache-miss
test, the restart (clear buffer, set `begin_offset = offset`, take
ownership, cancel any previous pump, configure URL and — when `offset >
0` — a byte range, attach to the pump), the pump loop appending bytes
that continue the window, the clearing of the range option after the
first perform, and the completion check.  `check_running`'s own
`curl_multi_perform` delivery is folded into `env.pumped`. -/
def rcFill (remote : List Nat) (full_path : String) (size off fhId : Nat)
    (fh : FtpfsFile) (g : FtpfsGlobal) (env : ReadEnv) : FillResult :=
  if needMiss fh.buf.p.length size off fh.buf.begin_offset then
    let doRestart := restartCond g fhId off fh.buf.begin_offset
      fh.buf.p.length env.runningBefore
    let fh1 := if doRestart then { fh with buf := ⟨[], off⟩ } else fh
    let g1 := if doRestart then
        { g with current_fh := some fhId, attached_to_multi := true }
      else g
    let acts1 : List CurlAction := if doRestart then
        (if g.attached_to_multi then [CurlAction.removeHandle] else []) ++
          [CurlAction.setUrl full_path] ++
          (if off > 0 then [CurlAction.setRange off] else []) ++
          [CurlAction.addHandle]
      else []
    let startPos := fh1.buf.begin_offset + fh1.buf.p.length
    let fh2 := { fh1 with
      buf := ⟨fh1.buf.p ++ (remote.drop startPos).take env.pumped,
              fh1.buf.begin_offset⟩ }
    let errv := env.selectErr || (!env.runningAfter && !env.msgOk)
    ⟨fh2, g1, errv, doRestart, acts1 ++ [CurlAction.clearRange]⟩
  else
    ⟨fh, g, false, false, []⟩

/-- Result of the serve phase of `ftpfs_read_chunk`. -/
structure ServeResult where
  served : Nat
  out : List Nat
  fh : FtpfsFile
deriving Repr, DecidableEq

/-- Serve + shrink phase of `ftpfs_read_chunk` (ftpfs.c:314-333):
`to_copy = len + begin_offset - offset` (size_t arithmetic), clamp the
request, copy from index `offset - begin_offset`, update `last_offset`
when requested, then — when `can_shrink` and the window exceeds
`MAX_BUFFER_LEN` — memmove the unconsumed tail to the front, set `len =
to_copy - size` and `begin_offset = offset + size`.  `out` is the byte
sequence the `memcpy` places in the caller's buffer (the probe call
passes a NULL `rbuf` and ignores it). -/
def rcServe (size off : Nat) (update : Bool) (fh : FtpfsFile) :
    ServeResult :=
  let to_copy := usub (fh.buf.p.length + fh.buf.begin_offset) off
  let size2 := if size > to_copy then to_copy else size
  let out := (fh.buf.p.drop (off - fh.buf.begin_offset)).take size2
  let fh1 := if update then { fh with last_offset := off + size2 } else fh
  let fh2 :=
    if fh1.can_shrink && decide (fh1.buf.p.length > MAX_BUFFER_LEN) then
      { fh1 with buf :=
        ⟨(fh1.buf.p.drop (off - fh1.buf.begin_offset + size2)).take
            (to_copy - size2),
          off + size2⟩ }
    else fh1
  ⟨size2, out, fh2⟩

/-- Result of a whole `ftpfs_read_chunk` call.  `ret = none` models the
`CURLFTPFS_BAD_READ` return (ftpfs.h is not in src/; per the spec the
contract is `bytes_served | BadRead`). -/
structure RCResult where
  ret : Option Nat
  out : List Nat
  fh : FtpfsFile
  g : FtpfsGlobal
  acts : List CurlAction
deriving Repr, DecidableEq

/-- `ftpfs_read_chunk` (ftpfs.c:212-339): fill phase then serve phase;
a pump error yields `BadRead`. -/
def ftpfs_read_chunk (remote : List Nat) (full_path : String)
    (size off fhId : Nat) (update : Bool) (fh : FtpfsFile)
    (g : FtpfsGlobal) (env : ReadEnv) : RCResult :=
  let f := rcFill remote full_path size off fhId fh g env
  let s := rcServe size off update f.fh
  ⟨if f.err then none else some s.served, s.out, s.fh, f.g, f.acts⟩

/-- `ftpfs_read` (ftpfs.c:722-748): reject when bytes have been written
on this handle (`pos > 0` or an upload connection is present), otherwise
delegate to `ftpfs_read_chunk` with `update_offset = 1` and map
`BadRead` to `-EIO`. -/
def ftpfs_read (remote : List Nat) (full_path : String)
    (size off fhId : Nat) (fh : FtpfsFile) (g : FtpfsGlobal)
    (env : ReadEnv) : Int × FtpfsFile × FtpfsGlobal :=
  if decide (fh.pos > 0) || fh.write_conn then (-eio, fh, g)
  else
    let r := ftpfs_read_chunk remote full_path size off fhId true fh g env
    ((match r.ret with
      | none => -eio
      | some n => (n : Int)), r.fh, r.g)

/-- Environment for one `ftpfs_write` call: the `test_size(path)` answer
(the remote size, or a negative errno), whether `start_write_thread`
succeeds, whether `buf_add_mem` succeeds, the value the worker thread
leaves in `write_fail_cause` by the time `sem_data_written` is received
(`0` = no failure), and the value `write_fail_cause` holds after the
worker is joined by `finish_write_thread` (`0` = the drained upload
completed cleanly). -/
structure WriteEnv where
  path_size : Int
  start_ok : Bool
  addmem_ok : Bool
  workerFail : Int
  finishCause : Int
deriving Repr, DecidableEq

/-- `start_write_thread` (ftpfs.c:438-469), successful case: reset the
hand-off flags, create the dedicated upload connection and launch the
worker.  (A `pthread_create` failure in C leaves `write_conn` set and
the next write would deadlock on `sem_data_need`; the model treats a
failed start as leaving the handle without an upload connection, as in
the `curl_easy_init` failure case.) -/
def start_write_thread (fh : FtpfsFile) : FtpfsFile :=
  { fh with write_conn := true, written_flag := false, eof := false }

/-- `finish_write_thread` (ftpfs.c:471-496): post `eof`, join the
worker, tear down the upload connection; the worker may have recorded a
failure cause (parameter `cause`, `0` = clean) which is observed after
the join; returns `-EIO` when `write_fail_cause` is nonzero. -/
def finish_write_thread (fh : FtpfsFile) (cause : Int) : Int × FtpfsFile :=
  let fh1 := { fh with
    eof := true,
    write_conn := false,
    write_fail_cause :=
      if fh.write_fail_cause ≠ 0 then fh.write_fail_cause else cause }
  (if fh1.write_fail_cause ≠ 0 then -eio else 0, fh1)

/-- The trailing `if (fh->write_conn)` block of `ftpfs_write`
(ftpfs.c:1028-1062) plus the final `return size`: wait `sem_data_need`;
a non-sequential offset drains the worker and returns `-EIO`; otherwise
append to `stream_buf`, advance `pos`, post `sem_data_avail`, wait
`sem_data_written` (modelled as the worker consuming the hand-off buffer
in full), clear `written_flag`, and fail with `-EIO` if the worker
recorded a failure meanwhile.  Without an upload connection the call
falls through and returns `size`. -/
def writeBody (wbuf : List Nat) (off : Nat) (fh : FtpfsFile)
    (env : WriteEnv) : Int × FtpfsFile :=
  if fh.write_conn then
    if off ≠ fh.pos then
      (-eio, (finish_write_thread fh env.finishCause).2)
    else if !env.addmem_ok then (-enomem, fh)
    else
      let fh1 := { fh with
        stream_buf := fh.stream_buf ++ wbuf,
        pos := fh.pos + wbuf.length }
      let fh2 := { fh1 with
        stream_buf := [],
        written_flag := false,
        write_fail_cause := env.workerFail }
      if fh2.write_fail_cause ≠ 0 then (-eio, fh2)
      else ((wbuf.length : Int), fh2)
  else ((wbuf.length : Int), fh)

/-- `ftpfs_write` (ftpfs.c:974-1063): reject when a previous failure is
latched; lazily start the worker on a first `write(offset = 0)` at
`pos = 0` (guarded, when `write_may_start` is unset, by a remote size
check) or on a resumed `write(offset = pos > 0)`; then run the hand-off
body.  The size of the call is `wbuf.length`. -/
def ftpfs_write (wbuf : List Nat) (off : Nat) (fh : FtpfsFile)
    (env : WriteEnv) : Int × FtpfsFile :=
  if fh.write_fail_cause ≠ 0 then (-eio, fh)
  else if !fh.write_conn && decide (fh.pos = 0) && decide (off = 0) then
    if !fh.write_may_start && decide (env.path_size ≠ 0) then (-eio, fh)
    else if !env.start_ok then (-eio, fh)
    else writeBody wbuf off (start_write_thread fh) env
  else if !fh.write_conn && decide (fh.pos > 0) && decide (off = fh.pos)
  then
    if !env.start_ok then (-eio, fh)
    else writeBody wbuf off (start_write_thread fh) env
  else writeBody wbuf off fh env

/-- Whether `ftpfs_write` starts the upload worker during this call
(either start site of ftpfs.c:988-1026, including the guards). -/
def writeStarts (fh : FtpfsFile) (off : Nat) (env : WriteEnv) : Bool :=
  (!fh.write_conn && decide (fh.pos = 0) && decide (off = 0) &&
    (fh.write_may_start || decide (env.path_size = 0)) && env.start_ok) ||
  (!fh.write_conn && decide (fh.pos > 0) && decide (off = fh.pos) &&
    env.start_ok)

/-- Whether this `ftpfs_write` call reaches the hand-off: no latched
failure, an upload connection present after the start phase, a
sequential offset, and a successful `buf_add_mem`.  Exactly these calls
advance `pos` (by their size). -/
def handedOff (fh : FtpfsFile) (wbuf : List Nat) (off : Nat)
    (env : WriteEnv) : Bool :=
  decide (fh.write_fail_cause = 0) &&
    (fh.write_conn || writeStarts fh off env) &&
    decide (off = fh.pos) && env.addmem_ok

/-- One write call of a trace: payload, offset, environment. -/
structure WCall where
  wbuf : List Nat
  off : Nat
  env : WriteEnv
deriving Repr, DecidableEq

/-- Run a sequence of `ftpfs_write` calls on a handle. -/
def runWrites (fh : FtpfsFile) : List WCall → FtpfsFile
  | [] => fh
  | c :: cs => runWrites (ftpfs_write c.wbuf c.off fh c.env).2 cs

/-- Total size of the calls of a trace that reach the hand-off. -/
def handedSum (fh : FtpfsFile) : List WCall → Nat
  | [] => 0
  | c :: cs =>
    (if handedOff fh c.wbuf c.off c.env then c.wbuf.length else 0) +
      handedSum (ftpfs_write c.wbuf c.off fh c.env).2 cs

/-- Environment for the metadata operations: the result of the
`curl_easy_perform` upload in `create_empty_file`, the `getattr` answer
(`some st_size`, or `none` for a failed listing/parse), and the result
of the post-quote command session in `ftpfs_do_cmd`. -/
structure MetaEnv where
  uploadOk : Bool
  getattrSize : Option Int
  cmdOk : Bool
deriving Repr, DecidableEq

/-- `test_size` (ftpfs.c:587-594): `ftpfs_getattr` then `st_size`;
a failed getattr returns its error (`-ENOENT`). -/
def test_size (env : MetaEnv) : Int :=
  match env.getattrSize with
  | none => -enoent
  | some s => s

/-- `create_empty_file` (ftpfs.c:536-557): a zero-length upload to the
file's URL on the shared connection; a failed perform yields `-EPERM`. -/
def create_empty_file (path : String) (env : MetaEnv) :
    Int × List CurlAction :=
  (if env.uploadOk then 0 else -eperm, [CurlAction.uploadEmpty path])

/-- `ftpfs_chmod` (ftpfs.c:806-827): sends `SITE CHMOD <octal> <name>`
as a post-quote command; the mode is stripped to its low twelve bits
(`mode - mode / 0x1000 * 0x1000`). -/
def ftpfs_chmod (path : String) (mode : Nat) (env : MetaEnv) :
    Int × List CurlAction :=
  (if env.cmdOk then 0 else -eperm,
    [CurlAction.siteChmod (mode % 4096) path])

/-- `S_IFMT`, the file-type mask of `mode_t`. -/
def S_IFMT : Nat := 0xF000

/-- `S_IFREG`, the regular-file type bits. -/
def S_IFREG : Nat := 0x8000

/-- `ftpfs_mknod` (ftpfs.c:750-766): any mode whose type bits are not
`S_IFREG` is rejected with `-EPERM` before any remote command; otherwise
create an empty remote file and, on success, chmod it (the chmod result
is discarded). -/
def ftpfs_mknod (path : String) (mode : Nat) (env : MetaEnv) :
    Int × List CurlAction :=
  if Nat.land mode S_IFMT ≠ S_IFREG then (-eperm, [])
  else
    let r := create_empty_file path env
    if r.1 = 0 then (r.1, r.2 ++ (ftpfs_chmod path mode env).2)
    else (r.1, r.2)

/-- `ftpfs_truncate` (ftpfs.c:852-871): length zero creates an empty
remote file; a length equal to the current remote size is a no-op
returning `0`; any other length returns `-EPERM`. -/
def ftpfs_truncate (path : String) (off : Int) (env : MetaEnv) :
    Int × List CurlAction :=
  if off = 0 then create_empty_file path env
  else if off = test_size env then (0, [])
  else (-eperm, [])

/-- `ftpfs_ftruncate` (ftpfs.c:873-899): at length zero, a handle that
has not handed any bytes to the upload (`pos = 0`) sets
`write_may_start` and creates an empty remote file at its `open_path`;
with `pos > 0` it returns `-EPERM`; a nonzero length equal to the
remote size is a no-op, anything else `-EPERM`. -/
def ftpfs_ftruncate (off : Int) (fh : FtpfsFile) (env : MetaEnv) :
    Int × FtpfsFile × List CurlAction :=
  if off = 0 then
    if fh.pos = 0 then
      let fh1 := { fh with write_may_start := true }
      let r := create_empty_file fh.open_path env
      (r.1, fh1, r.2)
    else (-eperm, fh, [])
  else if off = test_size env then (0, fh, [])
  else (-eperm, fh, [])

/-- Environment for `ftpfs_flush`: the `write_fail_cause` observed after
joining the worker, and the `getattr` answer used for the size check. -/
structure FlushEnv where
  finishCause : Int
  getattrSize : Option Int
deriving Repr, DecidableEq

/-- `ftpfs_flush` (ftpfs.c:1065-1098): with an active upload, finish it,
then query the remote attributes and compare the reported size against
`pos`; a mismatch latches `write_fail_cause = -999` and returns `-EIO`.
Without an upload the call is a no-op unless `dirty` is set. -/
def ftpfs_flush (fh : FtpfsFile) (env : FlushEnv) : Int × FtpfsFile :=
  if fh.write_conn then
    let r := finish_write_thread fh env.finishCause
    if r.1 ≠ 0 then r
    else
      match env.getattrSize with
      | none => (-enoent, r.2)
      | some sz =>
        if sz ≠ (r.2.pos : Int) then
          (-eio, { r.2 with write_fail_cause := -999 })
        else (0, r.2)
  else if !fh.dirty then (0, fh)
  else (-eio, fh)

/-- The read-window invariant (spec §3/§8): `read_buf` holds exactly the
bytes `[begin_offset, begin_offset + len)` of the remote file. -/
def windowInv (remote : List Nat) (b : Buffer) : Prop :=
  b.p = (remote.drop b.begin_offset).take b.p.length

/-! ### Concrete states used as test vectors -/

/-- A freshly opened handle as initialized by `ftpfs_open_common`
(ftpfs.c:604-624). -/
def fh0 : FtpfsFile :=
  { buf := ⟨[], 0⟩, dirty := false, last_offset := 0, can_shrink := false,
    open_path := "/t/a", full_path := "ftp://host/t/a", stream_buf := [],
    write_conn := false, eof := false, written_flag := false,
    write_fail_cause := 0, write_may_start := false, pos := 0 }

/-- Read-only handle with a three-byte window `[0, 3)`. -/
def c1Fh : FtpfsFile :=
  { fh0 with
    buf := ⟨[0, 1, 2], 0⟩, can_shrink := true,
    open_path := "/f", full_path := "ftp://h/f" }

/-- Globals: handle 2 owns the shared connection, pump attached. -/
def c1G : FtpfsGlobal := ⟨some 2, true⟩

/-- Read environment: pump running, delivers nothing, no errors. -/
def c1Env : ReadEnv := ⟨true, 0, true, false, true⟩

/-- Read-only handle whose window is `[4, 6)`. -/
def c1wFh : FtpfsFile := { c1Fh with buf := ⟨[5, 6], 4⟩ }

/-- Globals: handle 1 owns the shared connection, pump detached. -/
def c1wG : FtpfsGlobal := ⟨some 1, false⟩

/-- Read environment in which the pump delivers two bytes. -/
def c1wEnv : ReadEnv := ⟨true, 2, true, false, true⟩

/-- Write environment: remote size 7, thread start and append succeed,
worker healthy. -/
def c2Env : WriteEnv := ⟨7, true, true, 0, 0⟩

/-- Handle with a running upload at `pos = 0`. -/
def c2wFh : FtpfsFile := { fh0 with write_conn := true }

/-- A sequential two-byte write call with a healthy environment. -/
def c2wCall : WCall := ⟨[5, 6], 0, ⟨0, true, true, 0, 0⟩⟩

/-- Handle with a running upload that has handed off five bytes. -/
def c3Fh : FtpfsFile := { fh0 with write_conn := true, pos := 5 }

/-- Write environment: healthy worker, clean drain. -/
def c3Env : WriteEnv := ⟨0, true, true, 0, 0⟩

/-- A 400000-byte remote file of sevens. -/
def c4Remote : List Nat := List.replicate 400000 7

/-- Read-only handle holding a 310000-byte window `[0, 310000)` of
`c4Remote` — above the 300 KiB shrink cap. -/
def c4Fh : FtpfsFile :=
  { fh0 with
    buf := ⟨List.replicate 310000 7, 0⟩, can_shrink := true }

/-- Read-only handle with window `[2, 7)` holding `[10, .., 14]`. -/
def c5Fh : FtpfsFile :=
  { fh0 with
    buf := ⟨[10, 11, 12, 13, 14], 2⟩, can_shrink := true }

/-- Metadata environment: upload and commands succeed, remote size 3. -/
def c6Env : MetaEnv := ⟨true, some 3, true⟩

/-- Handle on which one byte has been written (`pos = 1`). -/
def c7Fh : FtpfsFile := { fh0 with pos := 1 }

/-- Handle with a running upload that has handed off four bytes. -/
def c8Fh : FtpfsFile := { fh0 with write_conn := true, pos := 4 }

/-- Flush environment: the drained upload was clean, but the remote
reports size 9. -/
def c8Env : FlushEnv := ⟨0, some 9⟩

/-- Handle that has handed off two bytes. -/
def c9Fh : FtpfsFile := { fh0 with pos := 2 }

/-- Metadata environment: upload succeeds, remote file absent. -/
def c10Env : MetaEnv := ⟨true, none, true⟩

/-! ### Helper lemmas -/

theorem usub_eq {a b : Nat} (hba : b ≤ a) (ha : a < W64) :
    usub a b = a - b := by
  have hb : b < W64 := lt_of_le_of_lt hba ha
  unfold usub
  rw [Nat.mod_eq_of_lt ha, Nat.mod_eq_of_lt hb]
  have h1 : a + (W64 - b) = W64 + (a - b) := by omega
  rw [h1, Nat.add_mod_left]
  exact Nat.mod_eq_of_lt (by omega)

theorem rcServe_shrink_components (size off : Nat) (update : Bool)
    (fh : FtpfsFile)
    (hc : (fh.can_shrink && decide (fh.buf.p.length > MAX_BUFFER_LEN))
      = true) :
    (rcServe size off update fh).served =
      (if size > usub (fh.buf.p.length + fh.buf.begin_offset) off
       then usub (fh.buf.p.length + fh.buf.begin_offset) off else size) ∧
    (rcServe size off update fh).out =
      (fh.buf.p.drop (off - fh.buf.begin_offset)).take
        (rcServe size off update fh).served ∧
    (rcServe size off update fh).fh.buf.begin_offset =
      off + (rcServe size off update fh).served ∧
    (rcServe size off update fh).fh.buf.p =
      (fh.buf.p.drop (off - fh.buf.begin_offset +
        (rcServe size off update fh).served)).take
        (usub (fh.buf.p.length + fh.buf.begin_offset) off -
          (rcServe size off update fh).served) := by
  unfold rcServe
  cases update <;> simp_all

theorem handedOff_off {fh : FtpfsFile} {w : List Nat} {off : Nat}
    {env : WriteEnv} (h : handedOff fh w off env = true) : off = fh.pos := by
  simp only [handedOff, Bool.and_eq_true, decide_eq_true_eq] at h
  exact h.1.2

theorem writeBody_pos (w : List Nat) (off : Nat) (fh : FtpfsFile)
    (env : WriteEnv) :
    (writeBody w off fh env).2.pos =
      fh.pos +
        (if fh.write_conn && decide (off = fh.pos) && env.addmem_ok
         then w.length else 0) := by
  unfold writeBody finish_write_thread
  split_ifs <;> simp_all <;> split <;> simp_all

theorem ftpfs_write_pos_step (wbuf : List Nat) (off : Nat)
    (fh : FtpfsFile) (env : WriteEnv) :
    (ftpfs_write wbuf off fh env).2.pos =
      fh.pos + (if handedOff fh wbuf off env then wbuf.length else 0) := by
  unfold ftpfs_write handedOff writeStarts
  split_ifs with h1 h2 h3 h4 h5 h6 <;>
    cases hmw : fh.write_may_start <;>
    simp_all [writeBody_pos, start_write_thread]

theorem runWrites_pos (cs : List WCall) : ∀ fh : FtpfsFile,
    (runWrites fh cs).pos = fh.pos + handedSum fh cs := by
  induction cs with
  | nil => intro fh; simp [runWrites, handedSum]
  | cons c cs ih =>
    intro fh
    show (runWrites (ftpfs_write c.wbuf c.off fh c.env).2 cs).pos = _
    rw [ih, ftpfs_write_pos_step]
    simp [handedSum, Nat.add_assoc]

/-! ### C1 — restart conditions of the read engine -/

/-- C1: For every `ftpfs_read_chunk` call whose offset is a backward
seek (`offset < begin_offset`), a jump past the window end
(`offset > begin_offset + len`), or which arrives from a handle other
than the one that last used the shared connection *while the request
cannot be answered from the handle's own window*, the fill phase
restarts the transfer: it clears `read_buf` (the post-pump window is
exactly the freshly delivered bytes from `offset` on), sets
`begin_offset = offset`, makes this handle the current owner, attaches
to the pump, and configures the connection with the file URL and — when
`offset > 0` — a byte range starting at `offset`.  (The claim's
unqualified ownership-change trigger is amended: an ownership change
alone does not restart when the request is a cache hit in the handle's
window.) -/
theorem ftpfs_read_chunk_restart_triggers (remote : List Nat)
    (full_path : String) (size off fhId : Nat) (fh : FtpfsFile)
    (g : FtpfsGlobal) (env : ReadEnv)
    (h : off < fh.buf.begin_offset ∨
         off > fh.buf.begin_offset + fh.buf.p.length ∨
         (g.current_fh ≠ some fhId ∧
           needMiss fh.buf.p.length size off fh.buf.begin_offset = true)) :
    (rcFill remote full_path size off fhId fh g env).restarted = true ∧
    (rcFill remote full_path size off fhId fh g env).fh.buf.begin_offset
      = off ∧
    (rcFill remote full_path size off fhId fh g env).fh.buf.p =
      (remote.drop off).take env.pumped ∧
    (rcFill remote full_path size off fhId fh g env).g.current_fh =
      some fhId ∧
    (rcFill remote full_path size off fhId fh g env).g.attached_to_multi
      = true ∧
    CurlAction.setUrl full_path ∈
      (rcFill remote full_path size off fhId fh g env).acts ∧
    (0 < off → CurlAction.setRange off ∈
      (rcFill remote full_path size off fhId fh g env).acts) := by
  have hmiss : needMiss fh.buf.p.length size off fh.buf.begin_offset
      = true := by
    simp only [needMiss, Bool.or_eq_true, decide_eq_true_eq]
    rcases h with h | h | ⟨_, h⟩
    · tauto
    · tauto
    · simp only [needMiss, Bool.or_eq_true, decide_eq_true_eq] at h
      tauto
  have hres : restartCond g fhId off fh.buf.begin_offset fh.buf.p.length
      env.runningBefore = true := by
    simp only [restartCond, Bool.or_eq_true, decide_eq_true_eq]
    rcases h with h | h | ⟨h, _⟩ <;> tauto
  unfold rcFill
  rw [if_pos hmiss]
  simp only [hres, if_true]
  refine ⟨by simp, by simp, by simp, by simp, by simp,
    by simp [List.mem_append], ?_⟩
  intro hoff
  simp [hoff, List.mem_append]

/-- C1 counterexample: handle 1 reads `offset = 1`, `size = 1` from its
own window `[0, 3)` while handle 2 last used the shared connection — an
ownership change.  The claim, as stated, requires a restart; the code
serves from cache: nothing is restarted, the buffer is not cleared,
`begin_offset` is not set to 1, the owner stays handle 2, and no
connection configuration is issued. -/
theorem ftpfs_read_chunk_restart_cex :
    (rcFill [0, 1, 2] "ftp://h/f" 1 1 1 c1Fh c1G c1Env).restarted
      = false ∧
    (rcFill [0, 1, 2] "ftp://h/f" 1 1 1 c1Fh c1G c1Env).g.current_fh
      = some 2 ∧
    (rcFill [0, 1, 2] "ftp://h/f" 1 1 1 c1Fh c1G c1Env).fh.buf.p
      = [0, 1, 2] ∧
    (rcFill [0, 1, 2] "ftp://h/f" 1 1 1 c1Fh c1G c1Env).fh.buf.begin_offset
      = 0 ∧
    (rcFill [0, 1, 2] "ftp://h/f" 1 1 1 c1Fh c1G c1Env).acts = [] := by
  decide

/-- C1 witness: a backward seek (`offset 0 < begin_offset 4`) on handle
1 restarts: window becomes the two freshly pumped bytes of the remote
file from offset 0, handle 1 becomes owner, and the URL is
configured. -/
theorem ftpfs_read_chunk_restart_witness :
    (rcFill [1, 2, 3] "ftp://h/f" 1 0 1 c1wFh c1wG c1wEnv).restarted
      = true ∧
    (rcFill [1, 2, 3] "ftp://h/f" 1 0 1 c1wFh c1wG c1wEnv).fh.buf.begin_offset
      = 0 ∧
    (rcFill [1, 2, 3] "ftp://h/f" 1 0 1 c1wFh c1wG c1wEnv).fh.buf.p =
      (([1, 2, 3] : List Nat).drop 0).take c1wEnv.pumped ∧
    (rcFill [1, 2, 3] "ftp://h/f" 1 0 1 c1wFh c1wG c1wEnv).g.current_fh
      = some 1 ∧
    (rcFill [1, 2, 3] "ftp://h/f" 1 0 1 c1wFh c1wG c1wEnv).g.attached_to_multi
      = true ∧
    CurlAction.setUrl "ftp://h/f" ∈
      (rcFill [1, 2, 3] "ftp://h/f" 1 0 1 c1wFh c1wG c1wEnv).acts ∧
    (0 < 0 → CurlAction.setRange 0 ∈
      (rcFill [1, 2, 3] "ftp://h/f" 1 0 1 c1wFh c1wG c1wEnv).acts) :=
  ftpfs_read_chunk_restart_triggers [1, 2, 3] "ftp://h/f" 1 0 1 c1wFh
    c1wG c1wEnv (Or.inl (by decide))

/-! ### C5 — the serve step clamps and updates `last_offset` -/

/-- C5: At the serve step of `ftpfs_read_chunk` (the window satisfies
`begin_offset ≤ offset ≤ begin_offset + len`, as every path reaching
the serve step guarantees), the number of bytes served is the minimum
of the requested size and what the window holds at and beyond the
offset (`begin_offset + len - offset`); the served bytes are taken from
the window starting at index `offset - begin_offset`; and
`last_offset` becomes `offset + served` exactly when `update_offset`
is set. -/
theorem ftpfs_read_chunk_serve_clamp (size off : Nat) (update : Bool)
    (fh : FtpfsFile)
    (h1 : fh.buf.begin_offset ≤ off)
    (h2 : off ≤ fh.buf.begin_offset + fh.buf.p.length)
    (h3 : fh.buf.begin_offset + fh.buf.p.length < W64) :
    (rcServe size off update fh).served =
      min size (fh.buf.begin_offset + fh.buf.p.length - off) ∧
    (rcServe size off update fh).out =
      (fh.buf.p.drop (off - fh.buf.begin_offset)).take
        (min size (fh.buf.begin_offset + fh.buf.p.length - off)) ∧
    (update = true →
      (rcServe size off update fh).fh.last_offset =
        off + (rcServe size off update fh).served) ∧
    (update = false →
      (rcServe size off update fh).fh.last_offset = fh.last_offset) := by
  have hto : usub (fh.buf.p.length + fh.buf.begin_offset) off =
      fh.buf.p.length + fh.buf.begin_offset - off :=
    usub_eq (by omega) (by omega)
  have hmin : (if size > fh.buf.p.length + fh.buf.begin_offset - off
      then fh.buf.p.length + fh.buf.begin_offset - off else size) =
      min size (fh.buf.begin_offset + fh.buf.p.length - off) := by
    split <;> omega
  unfold rcServe
  simp only [hto, hmin]
  cases update <;> split_ifs <;> simp_all

/-- C5 witness: serving `size = 9` at `offset = 4` from the window
`[2, 7)` clamps to 3 bytes, returns window indices 2.., and updates
`last_offset` to 7. -/
theorem ftpfs_read_chunk_serve_clamp_witness :
    (rcServe 9 4 true c5Fh).served = min 9 (2 + 5 - 4) ∧
    (rcServe 9 4 true c5Fh).out =
      (([10, 11, 12, 13, 14] : List Nat).drop (4 - 2)).take
        (min 9 (2 + 5 - 4)) ∧
    (true = true → (rcServe 9 4 true c5Fh).fh.last_offset =
      4 + (rcServe 9 4 true c5Fh).served) ∧
    (true = false → (rcServe 9 4 true c5Fh).fh.last_offset =
      c5Fh.last_offset) :=
  ftpfs_read_chunk_serve_clamp 9 4 true c5Fh (by decide) (by decide)
    (by decide)

/-! ### C4 — shrink moves the tail and preserves the window -/

/-- C4: When `can_shrink` is set and the window length exceeds the
300 KiB soft cap, the shrink step of the serve phase moves the
unconsumed tail (the bytes after `offset + served`) to the front of
`read_buf`, sets `begin_offset = offset + served` and the length to the
tail length, and preserves the invariant that `read_buf` holds exactly
`[begin_offset, begin_offset + len)` of the remote file; the bytes
served are the corresponding slice of the remote file. -/
theorem ftpfs_read_chunk_shrink_preserves_window (remote : List Nat)
    (size off : Nat) (update : Bool) (fh : FtpfsFile)
    (hcs : fh.can_shrink = true)
    (hlen : fh.buf.p.length > MAX_BUFFER_LEN)
    (h1 : fh.buf.begin_offset ≤ off)
    (h2 : off ≤ fh.buf.begin_offset + fh.buf.p.length)
    (h3 : fh.buf.begin_offset + fh.buf.p.length < W64)
    (hinv : windowInv remote fh.buf) :
    (rcServe size off update fh).fh.buf.begin_offset =
      off + (rcServe size off update fh).served ∧
    (rcServe size off update fh).fh.buf.p =
      fh.buf.p.drop
        (off - fh.buf.begin_offset + (rcServe size off update fh).served) ∧
    (rcServe size off update fh).fh.buf.p.length =
      fh.buf.begin_offset + fh.buf.p.length -
        (off + (rcServe size off update fh).served) ∧
    windowInv remote (rcServe size off update fh).fh.buf ∧
    (rcServe size off update fh).out =
      (remote.drop off).take (rcServe size off update fh).served := by
  obtain ⟨hserved, hout, hbo2, hp2⟩ :=
    rcServe_shrink_components size off update fh (by simp [hcs, hlen])
  have hto : usub (fh.buf.p.length + fh.buf.begin_offset) off =
      fh.buf.p.length + fh.buf.begin_offset - off :=
    usub_eq (by omega) (by omega)
  rw [hto] at hserved hp2
  have hs2le : (rcServe size off update fh).served ≤
      fh.buf.p.length + fh.buf.begin_offset - off := by
    rw [hserved]; split <;> omega
  have hk : fh.buf.begin_offset + (off - fh.buf.begin_offset +
      (rcServe size off update fh).served) =
      off + (rcServe size off update fh).served := by omega
  have hp3 : (rcServe size off update fh).fh.buf.p =
      fh.buf.p.drop (off - fh.buf.begin_offset +
        (rcServe size off update fh).served) := by
    rw [hp2]
    apply List.take_of_length_le
    simp only [List.length_drop]
    omega
  refine ⟨hbo2, hp3, ?_, ?_, ?_⟩
  · rw [hp3]
    simp only [List.length_drop]
    omega
  · show (rcServe size off update fh).fh.buf.p =
      (remote.drop (rcServe size off update fh).fh.buf.begin_offset).take
        (rcServe size off update fh).fh.buf.p.length
    rw [hp3, hbo2]
    conv_lhs => rw [hinv]
    rw [List.drop_take, List.drop_drop, hk]
    congr 1
    simp [List.length_drop]
  · rw [hout]
    conv_lhs => rw [hinv]
    rw [List.drop_take, List.drop_drop]
    have hk2 : fh.buf.begin_offset + (off - fh.buf.begin_offset) = off :=
      by omega
    rw [hk2, List.take_take]
    congr 1
    omega

set_option maxRecDepth 10000 in
/-- C4 witness: on a 310000-byte window of a 400000-byte remote file,
serving 1000 bytes at offset 5000 triggers the shrink and preserves the
window invariant. -/
theorem ftpfs_read_chunk_shrink_preserves_window_witness :
    (rcServe 1000 5000 false c4Fh).fh.buf.begin_offset =
      5000 + (rcServe 1000 5000 false c4Fh).served ∧
    (rcServe 1000 5000 false c4Fh).fh.buf.p =
      c4Fh.buf.p.drop (5000 - c4Fh.buf.begin_offset +
        (rcServe 1000 5000 false c4Fh).served) ∧
    (rcServe 1000 5000 false c4Fh).fh.buf.p.length =
      c4Fh.buf.begin_offset + c4Fh.buf.p.length -
        (5000 + (rcServe 1000 5000 false c4Fh).served) ∧
    windowInv c4Remote (rcServe 1000 5000 false c4Fh).fh.buf ∧
    (rcServe 1000 5000 false c4Fh).out =
      (c4Remote.drop 5000).take (rcServe 1000 5000 false c4Fh).served :=
  ftpfs_read_chunk_shrink_preserves_window c4Remote 1000 5000 false c4Fh
    rfl
    (by show (List.replicate 310000 7).length > MAX_BUFFER_LEN
        rw [List.length_replicate]
        decide)
    (by show (0 : Nat) ≤ 5000
        decide)
    (by rw [show c4Fh.buf.p = List.replicate 310000 7 from rfl,
          List.length_replicate,
          show c4Fh.buf.begin_offset = 0 from rfl]
        decide)
    (by rw [show c4Fh.buf.p = List.replicate 310000 7 from rfl,
          List.length_replicate,
          show c4Fh.buf.begin_offset = 0 from rfl]
        decide)
    (by unfold windowInv
        rw [show c4Fh.buf.p = List.replicate 310000 7 from rfl,
          show c4Fh.buf.begin_offset = 0 from rfl,
          show c4Remote = List.replicate 400000 7 from rfl,
          List.drop_zero, List.length_replicate, List.take_replicate]
        congr 1)

/-! ### C2 — `pos` accounting across a sequence of writes -/

/-- C2 (amended): Across any sequence of `ftpfs_write` calls, `pos` is
monotonically non-decreasing and equals its initial value plus the sum
of the sizes of the calls that reach the hand-off to the upload worker
(`handedOff`: no latched failure, upload connection present after the
start phase, `offset = pos`, successful append) — and every such
hand-off call has `offset` equal to `pos` at its entry, i.e. the
initial `pos` plus the sizes handed off before it.  (The claim's
accounting over all *successful* calls is amended: a write with no
active upload and no applicable start condition returns its size
without advancing `pos`, and a write that fails only after the hand-off
still advances `pos`.) -/
theorem ftpfs_write_pos_accounting (fh : FtpfsFile) (cs : List WCall) :
    (runWrites fh cs).pos = fh.pos + handedSum fh cs ∧
    fh.pos ≤ (runWrites fh cs).pos ∧
    ∀ l c r, cs = l ++ c :: r →
      handedOff (runWrites fh l) c.wbuf c.off c.env = true →
      c.off = fh.pos + handedSum fh l := by
  refine ⟨runWrites_pos cs fh, ?_, ?_⟩
  · rw [runWrites_pos]
    exact Nat.le_add_right _ _
  · intro l c r _ hho
    rw [handedOff_off hho, runWrites_pos]

/-- C2 witness: a single sequential write on a handle with a running
upload: `pos` advances by the call's size and the call's offset equals
the entry `pos`. -/
theorem ftpfs_write_pos_accounting_witness :
    (runWrites c2wFh [c2wCall]).pos = c2wFh.pos + handedSum c2wFh [c2wCall] ∧
    c2wFh.pos ≤ (runWrites c2wFh [c2wCall]).pos ∧
    c2wCall.off = c2wFh.pos + handedSum c2wFh [] :=
  ⟨(ftpfs_write_pos_accounting c2wFh [c2wCall]).1,
   (ftpfs_write_pos_accounting c2wFh [c2wCall]).2.1,
   (ftpfs_write_pos_accounting c2wFh [c2wCall]).2.2 [] c2wCall [] rfl
     (by decide)⟩

/-- C2 counterexample: on a fresh handle (no upload connection,
`pos = 0`), `write(offset = 7, size = 3)` matches no start condition,
falls through the hand-off block, and returns 3 — a successful call —
while `pos` stays 0 (the claim requires `pos = 3` and the first
successful call to have offset 0). -/
theorem ftpfs_write_pos_accounting_cex :
    (ftpfs_write [1, 2, 3] 7 fh0 c2Env).1 = 3 ∧
    (ftpfs_write [1, 2, 3] 7 fh0 c2Env).2.pos = 0 ∧
    (7 : Nat) ≠ 0 := by
  decide

/-! ### C3 — non-sequential writes -/

/-- C3 (amended): A write whose offset differs from `pos`, on a handle
with an active upload and no latched failure, drains (finishes) the
upload worker and returns `-EIO`; but it does **not** itself latch
`write_fail_cause` — the field is left exactly as the drained worker
recorded it (`env.finishCause`, `0` for a cleanly terminated upload),
so subsequent writes are not automatically rejected.  `pos` is
unchanged. -/
theorem ftpfs_write_nonseq (wbuf : List Nat) (off : Nat)
    (fh : FtpfsFile) (env : WriteEnv)
    (hc : fh.write_conn = true) (h0 : fh.write_fail_cause = 0)
    (hne : off ≠ fh.pos) :
    (ftpfs_write wbuf off fh env).1 = -eio ∧
    (ftpfs_write wbuf off fh env).2.write_conn = false ∧
    (ftpfs_write wbuf off fh env).2.write_fail_cause = env.finishCause ∧
    (ftpfs_write wbuf off fh env).2.pos = fh.pos := by
  unfold ftpfs_write writeBody finish_write_thread
  simp [hc, h0, hne]

/-- C3 witness: a non-sequential write (`offset 0`, `pos 5`) on a
handle with a running upload returns `-EIO`, tears down the
connection, leaves `write_fail_cause` at the drain result, and keeps
`pos`. -/
theorem ftpfs_write_nonseq_witness :
    (ftpfs_write [9] 0 c3Fh c3Env).1 = -eio ∧
    (ftpfs_write [9] 0 c3Fh c3Env).2.write_conn = false ∧
    (ftpfs_write [9] 0 c3Fh c3Env).2.write_fail_cause = c3Env.finishCause ∧
    (ftpfs_write [9] 0 c3Fh c3Env).2.pos = c3Fh.pos :=
  ftpfs_write_nonseq [9] 0 c3Fh c3Env rfl rfl (by decide)

/-- C3 counterexample: after a non-sequential write on a handle whose
upload drains cleanly, `write_fail_cause` is still 0 — nothing is
latched — and a subsequent sequential write at `offset = pos = 5`
succeeds (returns its size 1), contradicting the claim that subsequent
writes also return I/O errors. -/
theorem ftpfs_write_nonseq_cex :
    (ftpfs_write [9] 0 c3Fh c3Env).1 = -eio ∧
    (ftpfs_write [9] 0 c3Fh c3Env).2.write_fail_cause = 0 ∧
    (ftpfs_write [7] 5 (ftpfs_write [9] 0 c3Fh c3Env).2 c3Env).1 = 1 := by
  decide

/-! ### C6 — truncate -/

/-- C6: `ftpfs_truncate` has exactly three outcomes: length zero
creates an empty remote file (succeeding when the upload succeeds);
a length equal to the current remote size succeeds with no remote
effect; any other length fails with `-EPERM` and no remote effect. -/
theorem ftpfs_truncate_cases (path : String) (off : Int) (env : MetaEnv) :
    (off = 0 → env.uploadOk = true →
      ftpfs_truncate path off env = (0, [CurlAction.uploadEmpty path])) ∧
    (off ≠ 0 → test_size env = off →
      ftpfs_truncate path off env = (0, [])) ∧
    (off ≠ 0 → test_size env ≠ off →
      ftpfs_truncate path off env = (-eperm, [])) := by
  refine ⟨?_, ?_, ?_⟩
  · intro h0 hu
    simp [ftpfs_truncate, create_empty_file, h0, hu]
  · intro h0 hs
    unfold ftpfs_truncate
    rw [if_neg h0, if_pos hs.symm]
  · intro h0 hs
    unfold ftpfs_truncate
    rw [if_neg h0, if_neg (fun h => hs h.symm)]

/-- C6 witness: with remote size 3, truncate to 0 creates an empty
file, truncate to 3 is a remote no-op returning 0, truncate to 5
returns `-EPERM`. -/
theorem ftpfs_truncate_cases_witness :
    ftpfs_truncate "/t/a" 0 c6Env = (0, [CurlAction.uploadEmpty "/t/a"]) ∧
    ftpfs_truncate "/t/a" 3 c6Env = (0, []) ∧
    ftpfs_truncate "/t/a" 5 c6Env = (-eperm, []) :=
  ⟨(ftpfs_truncate_cases "/t/a" 0 c6Env).1 rfl rfl,
   (ftpfs_truncate_cases "/t/a" 3 c6Env).2.1 (by decide) (by decide),
   (ftpfs_truncate_cases "/t/a" 5 c6Env).2.2 (by decide) (by decide)⟩

/-! ### C7 — read-after-write guard -/

/-- C7: `ftpfs_read` returns `-EIO` and leaves the handle and the
shared-connection state untouched whenever bytes have been written on
the handle (`pos > 0`) or an upload is active (`write_conn` present);
otherwise it delegates to `ftpfs_read_chunk` with `update_offset` set,
mapping `BadRead` to `-EIO`. -/
theorem ftpfs_read_guard (remote : List Nat) (full_path : String)
    (size off fhId : Nat) (fh : FtpfsFile) (g : FtpfsGlobal)
    (env : ReadEnv) :
    (fh.pos > 0 ∨ fh.write_conn = true →
      ftpfs_read remote full_path size off fhId fh g env = (-eio, fh, g)) ∧
    (fh.pos = 0 → fh.write_conn = false →
      ftpfs_read remote full_path size off fhId fh g env =
        ((match (ftpfs_read_chunk remote full_path size off fhId true fh g
            env).ret with
          | none => -eio
          | some n => (n : Int)),
         (ftpfs_read_chunk remote full_path size off fhId true fh g env).fh,
         (ftpfs_read_chunk remote full_path size off fhId true fh g
            env).g)) := by
  constructor
  · intro h
    have hc : (decide (fh.pos > 0) || fh.write_conn) = true := by
      rcases h with h | h <;> simp [h]
    unfold ftpfs_read
    rw [if_pos hc]
  · intro h0 hw
    have hc : (decide (fh.pos > 0) || fh.write_conn) = false := by
      simp [h0, hw]
    unfold ftpfs_read
    rw [if_neg (by simp [hc])]

/-- C7 witness: a handle with `pos = 1` is rejected with `-EIO` and
nothing changes. -/
theorem ftpfs_read_guard_witness :
    ftpfs_read [1, 2, 3] "ftp://h/f" 1 0 1 c7Fh c1wG c1Env =
      (-eio, c7Fh, c1wG) :=
  (ftpfs_read_guard [1, 2, 3] "ftp://h/f" 1 0 1 c7Fh c1wG c1Env).1
    (Or.inl (by decide))

/-! ### C8 — flush size verification -/

/-- C8: `ftpfs_flush` on a handle with an active upload finishes the
upload (the connection is gone afterwards) and queries the remote
attributes; when the reported size differs from `pos` it latches
`write_fail_cause = -999` — a negative in-band sentinel that no
transfer-library status code (a non-negative enum) can equal — and
returns `-EIO`. -/
theorem ftpfs_flush_size_mismatch (fh : FtpfsFile) (env : FlushEnv)
    (sz : Int) (hc : fh.write_conn = true) (h0 : fh.write_fail_cause = 0)
    (hf : env.finishCause = 0) (hg : env.getattrSize = some sz)
    (hne : sz ≠ (fh.pos : Int)) :
    (ftpfs_flush fh env).1 = -eio ∧
    (ftpfs_flush fh env).2.write_fail_cause = -999 ∧
    (ftpfs_flush fh env).2.write_conn = false ∧
    (ftpfs_flush fh env).2.write_fail_cause < 0 ∧
    (∀ c : Nat, (c : Int) ≠ (ftpfs_flush fh env).2.write_fail_cause) := by
  unfold ftpfs_flush finish_write_thread
  simp [hc, h0, hf, hg, hne]

/-- C8 witness: a clean drain at `pos = 4` against a remote reporting
size 9 yields `-EIO` with the `-999` sentinel latched. -/
theorem ftpfs_flush_size_mismatch_witness :
    (ftpfs_flush c8Fh c8Env).1 = -eio ∧
    (ftpfs_flush c8Fh c8Env).2.write_fail_cause = -999 ∧
    (ftpfs_flush c8Fh c8Env).2.write_conn = false ∧
    (ftpfs_flush c8Fh c8Env).2.write_fail_cause < 0 ∧
    (∀ c : Nat, (c : Int) ≠ (ftpfs_flush c8Fh c8Env).2.write_fail_cause) :=
  ftpfs_flush_size_mismatch c8Fh c8Env 9 rfl rfl rfl rfl (by decide)

/-! ### C9 — ftruncate to zero -/

/-- C9: `ftpfs_ftruncate` at length zero: with `pos = 0` it sets
`write_may_start`, creates an empty remote file at the handle's open
path and returns that result; with `pos > 0` it returns `-EPERM`
unconditionally, even though the length is zero. -/
theorem ftpfs_ftruncate_zero_cases (fh : FtpfsFile) (env : MetaEnv) :
    (fh.pos = 0 →
      ftpfs_ftruncate 0 fh env =
        ((create_empty_file fh.open_path env).1,
         { fh with write_may_start := true },
         [CurlAction.uploadEmpty fh.open_path])) ∧
    (fh.pos > 0 → ftpfs_ftruncate 0 fh env = (-eperm, fh, [])) := by
  constructor
  · intro h0
    simp [ftpfs_ftruncate, h0, create_empty_file]
  · intro hpos
    have h0 : fh.pos ≠ 0 := by omega
    simp [ftpfs_ftruncate, h0]

/-- C9 witness: with `pos = 0` the call creates the empty file and sets
`write_may_start`; with `pos = 2` it returns `-EPERM`. -/
theorem ftpfs_ftruncate_zero_cases_witness :
    ftpfs_ftruncate 0 fh0 c6Env =
      ((create_empty_file fh0.open_path c6Env).1,
       { fh0 with write_may_start := true },
       [CurlAction.uploadEmpty fh0.open_path]) ∧
    ftpfs_ftruncate 0 c9Fh c6Env = (-eperm, c9Fh, []) :=
  ⟨(ftpfs_ftruncate_zero_cases fh0 c6Env).1 rfl,
   (ftpfs_ftruncate_zero_cases c9Fh c6Env).2 (by decide)⟩

/-! ### C10 — mknod file-type gate -/

/-- C10: `ftpfs_mknod` rejects any mode whose file-type bits are not
`S_IFREG` with `-EPERM` and no remote command; for a regular-file mode
it creates an empty remote file and, exactly when that succeeds, issues
the `SITE CHMOD` for the mode's permission bits. -/
theorem ftpfs_mknod_filetype (path : String) (mode : Nat)
    (env : MetaEnv) :
    (Nat.land mode S_IFMT ≠ S_IFREG →
      ftpfs_mknod path mode env = (-eperm, [])) ∧
    (Nat.land mode S_IFMT = S_IFREG → env.uploadOk = true →
      ftpfs_mknod path mode env =
        (0, [CurlAction.uploadEmpty path,
             CurlAction.siteChmod (mode % 4096) path])) ∧
    (Nat.land mode S_IFMT = S_IFREG → env.uploadOk = false →
      ftpfs_mknod path mode env =
        (-eperm, [CurlAction.uploadEmpty path])) := by
  refine ⟨?_, ?_, ?_⟩
  · intro h
    simp [ftpfs_mknod, h]
  · intro h hu
    simp [ftpfs_mknod, h, create_empty_file, ftpfs_chmod, hu]
  · intro h hu
    simp [ftpfs_mknod, h, create_empty_file, hu, eperm]

/-- C10 witness: a directory mode (`S_IFDIR = 0x4000`) is rejected with
no remote action; a regular-file mode `0x81A4` (0644) creates the file
and chmods it to `644`. -/
theorem ftpfs_mknod_filetype_witness :
    ftpfs_mknod "/d" 0x4000 c10Env = (-eperm, []) ∧
    ftpfs_mknod "/t/a" 0x81A4 c10Env =
      (0, [CurlAction.uploadEmpty "/t/a",
           CurlAction.siteChmod (0x81A4 % 4096) "/t/a"]) :=
  ⟨(ftpfs_mknod_filetype "/d" 0x4000 c10Env).1 (by decide),
   (ftpfs_mknod_filetype "/t/a" 0x81A4 c10Env).2.1 (by decide) rfl⟩
